import Mathlib

/-!
# Shareport: key loading, environment and script assembly, connection forwarding

A shallow embedding of `ssh_key.go` and `main.go` of the `shareport` program.

* Go `string` values are Lean `String`s; `[]byte` values and the `bytes.Buffer` holding the
  remote script are lists of bytes, a string being written to a buffer as its UTF-8 encoding.
* Go `error` values are trees recording `errors.New` / `errors.Errorf` leaves and
  `errors.Wrap` nodes; `GoError.Error` is the message.
* Functions of packages outside the program (`encoding/pem`, `crypto/x509`,
  `golang.org/x/crypto/ssh`, `net`, `io/ioutil`, `go_helpers/env`) are fields of the structures
  `KeyLib` and `World`: every theorem quantifies over them.
* Functions of the program that only call pure library code return, next to their result, the
  list of calls they made, so that statements of the form "the parser is not invoked" can be
  expressed.
-/

namespace Shareport

/-! ## Errors -/

/-- Go error values built by `github.com/pkg/errors`. -/
inductive GoError where
  | mk (msg : String)
  | wrap (cause : GoError) (msg : String)
  deriving DecidableEq, Repr

/-- The message of an error: `errors.Wrap(err, msg).Error()` is `msg + ": " + err.Error()`. -/
def GoError.Error : GoError → String
  | .mk msg => msg
  | .wrap cause msg => msg ++ ": " ++ cause.Error

deriving instance DecidableEq for Except

/-- The function `errors.New`. -/
def errorsNew (msg : String) : GoError := .mk msg

/-- The function `errors.Wrap` applied to a non-nil error. -/
def errorsWrap (err : GoError) (msg : String) : GoError := .wrap err msg

/-! ## Strings, bytes and the `%q` verb -/

/-- Go byte slices. -/
abbrev Bytes := List UInt8

/-- The bytes of a Go string. -/
def utf8 (s : String) : Bytes := s.data.flatMap String.utf8EncodeChar

/-- The digit table `lowerhex` of `strconv`. -/
def lowerhex (n : Nat) : Char := "0123456789abcdef".toList.getD (n % 16) '0'

/-- The function `strconv.IsPrint`: the Latin-1 fast path is spelled out, the Unicode tables
consulted for larger runes are the parameter `table`. -/
def IsPrint (table : Char → Bool) (r : Char) : Bool :=
  if r.toNat ≤ 0xFF then
    if 0x20 ≤ r.toNat ∧ r.toNat ≤ 0x7E then true
    else if 0xA1 ≤ r.toNat ∧ r.toNat ≤ 0xFF then r.toNat != 0xAD
    else false
  else table r

/-- The function `strconv.appendEscapedRune` with `quote = '"'`, `ASCIIonly = false` and
`graphicOnly = false`, as reached from `%q`. A Lean `Char` is always a valid rune, so the
`!utf8.ValidRune(r)` case does not arise. -/
def appendEscapedRune (table : Char → Bool) (r : Char) : String :=
  if r = '"' ∨ r = '\\' then "\\" ++ r.toString
  else if IsPrint table r then r.toString
  else if r.toNat = 7 then "\\a"
  else if r.toNat = 8 then "\\b"
  else if r.toNat = 12 then "\\f"
  else if r.toNat = 10 then "\\n"
  else if r.toNat = 13 then "\\r"
  else if r.toNat = 9 then "\\t"
  else if r.toNat = 11 then "\\v"
  else if r.toNat < 0x20 ∨ r.toNat = 0x7F then
    "\\x" ++ String.mk [lowerhex (r.toNat / 16), lowerhex r.toNat]
  else if r.toNat < 0x10000 then
    "\\u" ++ String.mk [lowerhex (r.toNat / 4096), lowerhex (r.toNat / 256),
      lowerhex (r.toNat / 16), lowerhex r.toNat]
  else
    "\\U" ++ String.mk [lowerhex (r.toNat / 268435456), lowerhex (r.toNat / 16777216),
      lowerhex (r.toNat / 1048576), lowerhex (r.toNat / 65536), lowerhex (r.toNat / 4096),
      lowerhex (r.toNat / 256), lowerhex (r.toNat / 16), lowerhex r.toNat]

/-- The verb `%q` of `fmt` applied to a string, that is `strconv.Quote`: a double-quoted Go
string literal. -/
def quote (table : Char → Bool) (s : String) : String :=
  s.toList.foldl (fun buf r => buf ++ appendEscapedRune table r) "\"" ++ "\""

/-! ## `ssh_key.go` -/

/-- The struct `pem.Block`; `blockType` is its field `Type`. -/
structure PemBlock where
  blockType : String
  Headers : List (String × String)
  Bytes : Bytes
  deriving DecidableEq, Repr

/-- The library functions used by `ssh_key.go`, and the Unicode table behind `%q`.
`Signer` is `ssh.Signer`; `Key` is the `interface{}` holding a parsed private key. -/
structure KeyLib (Signer Key : Type) where
  /-- `pem.Decode`, first component: the first PEM block of the input, if any. -/
  pemDecode : Bytes → Option PemBlock
  /-- `x509.IsEncryptedPEMBlock`. -/
  isEncryptedPEMBlock : PemBlock → Bool
  /-- `x509.DecryptPEMBlock`. -/
  decryptPEMBlock : PemBlock → Bytes → Except GoError Bytes
  /-- `x509.ParsePKCS1PrivateKey`. -/
  parsePKCS1PrivateKey : Bytes → Except GoError Key
  /-- `x509.ParseECPrivateKey`. -/
  parseECPrivateKey : Bytes → Except GoError Key
  /-- `ssh.ParseDSAPrivateKey`. -/
  parseDSAPrivateKey : Bytes → Except GoError Key
  /-- `ssh.NewSignerFromKey`. -/
  newSignerFromKey : Key → Except GoError Signer
  /-- `ssh.ParsePrivateKey`. -/
  parsePrivateKey : Bytes → Except GoError Signer
  /-- The tables of `strconv.IsPrint` for runes above Latin-1. -/
  isPrintTable : Char → Bool

/-- The calls made while loading a key. -/
inductive Call where
  | pemDecode (input : Bytes)
  | isEncryptedPEMBlock (block : PemBlock)
  | decryptPEMBlock (block : PemBlock) (password : Bytes)
  | parsePemBlock (block : PemBlock)
  | parsePKCS1PrivateKey (der : Bytes)
  | parseECPrivateKey (der : Bytes)
  | parseDSAPrivateKey (der : Bytes)
  | newSignerFromKey
  | parsePrivateKey (pemBytes : Bytes)
  deriving DecidableEq, Repr

/-- The function `parsePemBlock` of `ssh_key.go`: the calls made and the returned pair
`(key, error)`. -/
def parsePemBlock {Signer Key : Type} (lib : KeyLib Signer Key) (block : PemBlock) :
    List Call × Except GoError Key :=
  if block.blockType = "RSA PRIVATE KEY" then
    ([.parsePKCS1PrivateKey block.Bytes],
      match lib.parsePKCS1PrivateKey block.Bytes with
      | .error err => .error (errorsWrap err "Parsing PKCS private key failed")
      | .ok key => .ok key)
  else if block.blockType = "EC PRIVATE KEY" then
    ([.parseECPrivateKey block.Bytes],
      match lib.parseECPrivateKey block.Bytes with
      | .error err => .error (errorsWrap err "Parsing EC private key failed")
      | .ok key => .ok key)
  else if block.blockType = "DSA PRIVATE KEY" then
    ([.parseDSAPrivateKey block.Bytes],
      match lib.parseDSAPrivateKey block.Bytes with
      | .error err => .error (errorsWrap err "Parsing DSA private key failed")
      | .ok key => .ok key)
  else
    ([], .error (errorsNew ("Parsing private key failed, unsupported key type "
      ++ quote lib.isPrintTable block.blockType)))

/-- The function `signerFromPem` of `ssh_key.go`: the calls made and the returned pair
`(signer, error)`; `.error` stands for a nil signer with a non-nil error. -/
def signerFromPem {Signer Key : Type} (lib : KeyLib Signer Key) (pemBytes password : Bytes) :
    List Call × Except GoError Signer :=
  match lib.pemDecode pemBytes with
  | none => ([.pemDecode pemBytes], .error (errorsNew "Pem decode failed, no key found"))
  | some pemBlock =>
    if lib.isEncryptedPEMBlock pemBlock then
      match lib.decryptPEMBlock pemBlock password with
      | .error err =>
        ([.pemDecode pemBytes, .isEncryptedPEMBlock pemBlock,
            .decryptPEMBlock pemBlock password],
          .error (errorsWrap err "Decrypting PEM block failed"))
      | .ok bytes =>
        let decrypted : PemBlock := { pemBlock with Bytes := bytes }
        let parsed := parsePemBlock lib decrypted
        match parsed.2 with
        | .error err =>
          ([.pemDecode pemBytes, .isEncryptedPEMBlock pemBlock,
              .decryptPEMBlock pemBlock password, .parsePemBlock decrypted] ++ parsed.1,
            .error err)
        | .ok key =>
          ([.pemDecode pemBytes, .isEncryptedPEMBlock pemBlock,
              .decryptPEMBlock pemBlock password, .parsePemBlock decrypted] ++ parsed.1
              ++ [.newSignerFromKey],
            match lib.newSignerFromKey key with
            | .error err => .error (errorsWrap err "Creating signer from encrypted key failed")
            | .ok signer => .ok signer)
    else
      ([.pemDecode pemBytes, .isEncryptedPEMBlock pemBlock, .parsePrivateKey pemBytes],
        match lib.parsePrivateKey pemBytes with
        | .error err => .error (errorsWrap err "Parsing plain private key failed")
        | .ok signer => .ok signer)

/-! ## `main.go`: configuration, environment and script assembly -/

/-- The global `cfg` of `main.go`, as filled in by `rconfig.ParseAndValidate`. -/
structure Config where
  DebugRemote : Bool
  IdentityFile : String
  IdentityFilePassword : String
  LocalAddr : String
  LogLevel : String
  RemoteHost : String
  RemoteCommand : String
  RemoteListen : String
  RemoteScript : String
  RemoteUser : String
  Vars : List String
  VersionAndExit : Bool
  deriving DecidableEq, Repr

/-- Go values of type `map[string]string`: finite maps with unique keys. -/
abbrev GoMap := AList (fun _ : String => String)

/-- The struct `ssh.ClientConfig` as built by `main`: `Auth` is `ssh.PublicKeys` of the loaded
signer, and the host key callback is always `ssh.InsecureIgnoreHostKey()`. -/
structure ClientConfig (Signer : Type) where
  User : String
  Auth : Signer

/-- Everything outside the program that `main` talks to. -/
structure World (Signer Key : Type) extends KeyLib Signer Key where
  /-- `ioutil.ReadFile`. -/
  readFile : String → Except GoError Bytes
  /-- `ssh.Dial("tcp", addr, config)`: the error, if any. -/
  sshDial : String → ClientConfig Signer → Option GoError
  /-- `client.Listen("tcp", addr)`: on success, `remoteListener.Addr().String()`. -/
  clientListen : String → Except GoError String
  /-- `net.SplitHostPort`. -/
  splitHostPort : String → Except GoError (String × String)
  /-- `client.NewSession()`: the error, if any. -/
  newSession : Option GoError
  /-- `session.Start(cmd)` with the given standard input: the error, if any. -/
  sessionStart : String → Bytes → Option GoError
  /-- `env.ListToMap` of `github.com/Luzifer/go_helpers`: the map it returns, or `none` when
  the call panics, as it does on an entry it cannot split. -/
  listToMap : List String → Option GoMap
  /-- The order in which a `range` loop visits a map. -/
  rangeOrder : GoMap → List (Sigma fun _ : String => String)
  /-- A `range` loop visits every entry of the map exactly once. -/
  rangeOrder_perm : ∀ m, (rangeOrder m).Perm m.entries

/-- The effects `main` performs, in program order. -/
inductive Effect where
  | signalNotify
  | readFile (path : String)
  | sshDial (addr user : String)
  | clientListen (addr : String)
  | logDebug (msg port : String)
  | goAcceptLoop
  | newSession
  | sessionStart (cmd : String) (stdin : Bytes) (stderrToLocal : Bool)
  | fatal (msg : String) (err : Option GoError)
  /-- A run-time panic raised inside `env.ListToMap`. -/
  | panic
  /-- The deferred `session.Close()`, run while panicking. -/
  | sessionClose
  /-- The deferred `remoteListener.Close()`, run while panicking. -/
  | remoteListenerClose
  deriving DecidableEq, Repr

/-- The function `loadPrivateKey` of `main.go`. The returned `ssh.AuthMethod` is
`ssh.PublicKeys(pk)` and is represented by `pk`. -/
def loadPrivateKey {Signer Key : Type} (w : World Signer Key) (cfg : Config) :
    Except GoError Signer :=
  match w.readFile cfg.IdentityFile with
  | .error err => .error (errorsWrap err "Unable to read key file")
  | .ok kf =>
    match (signerFromPem w.toKeyLib kf (utf8 cfg.IdentityFilePassword)).2 with
    | .error err => .error (errorsWrap err "Unable to parse private key")
    | .ok pk => .ok pk

/-- Lines 173-174 of `main.go`: the environment handed to the remote script, built from the
map `envVars` that `env.ListToMap(cfg.Vars)` returned at line 172. -/
def assembleEnv (envVars : GoMap) (port listen : String) : GoMap :=
  (envVars.insert "PORT" port).insert "LISTEN" listen

/-- Line 177 of `main.go`: the text `fmt.Fprintf(scriptIn, "export %s=%q\n", k, v)` writes. -/
def exportLine (table : Char → Bool) (k v : String) : String :=
  "export " ++ k ++ "=" ++ quote table v ++ "\n"

/-- Lines 176-178 of `main.go`: the lines written by the loop over `envVars`. -/
def exportLines {Signer Key : Type} (w : World Signer Key) (envVars : GoMap) : List String :=
  (w.rangeOrder envVars).map fun e => exportLine w.isPrintTable e.1 e.2

/-- Lines 163 and 173-178 of `main.go`: the contents of `scriptIn` when the `switch` on the
payload is reached, `envVars` being the map returned by `env.ListToMap(cfg.Vars)`. -/
def scriptHead {Signer Key : Type} (w : World Signer Key) (envVars : GoMap)
    (port listen : String) : Bytes :=
  utf8 "set -euxo pipefail\n"
    ++ (exportLines w (assembleEnv envVars port listen)).flatMap utf8

/-- Lines 195-206 of `main.go`: the session is started on the assembled input. -/
def startSession {Signer Key : Type} (w : World Signer Key) (cfg : Config) (scriptIn : Bytes) :
    List Effect :=
  .sessionStart "/bin/bash -euxo pipefail" scriptIn cfg.DebugRemote ::
    match w.sessionStart "/bin/bash -euxo pipefail" scriptIn with
    | some err => [.fatal "Unable to spawn remote command" (some err)]
    | none => []

/-- The function `main` of `main.go` from its first statement to the return of
`session.Start`: the effects performed, in order. `log.Fatal` ends the process without running
deferred calls, so a `fatal` effect is always the last one. A panic inside `env.ListToMap`
(line 172) unwinds `main`: the deferred `session.Close()` and `remoteListener.Close()` run and
the process ends. -/
def main {Signer Key : Type} (w : World Signer Key) (cfg : Config) : List Effect :=
  .signalNotify :: .readFile cfg.IdentityFile ::
  match loadPrivateKey w cfg with
  | .error err => [.fatal "Unable to load key" (some err)]
  | .ok privateKey =>
    .sshDial cfg.RemoteHost cfg.RemoteUser ::
    match w.sshDial cfg.RemoteHost { User := cfg.RemoteUser, Auth := privateKey } with
    | some err => [.fatal "Unable to connect to remote host" (some err)]
    | none =>
      .clientListen cfg.RemoteListen ::
      match w.clientListen cfg.RemoteListen with
      | .error err => [.fatal "Unable to listen for connection" (some err)]
      | .ok listen =>
        match w.splitHostPort listen with
        | .error err => [.fatal "Unable to get port of remote listen socket" (some err)]
        | .ok (_, port) =>
          .logDebug "Remote port established" port :: .goAcceptLoop :: .newSession ::
          match w.newSession with
          | some err => [.fatal "Unable to open remote session" (some err)]
          | none =>
            match w.listToMap cfg.Vars with
            | none => [.panic, .sessionClose, .remoteListenerClose]
            | some envVars =>
              if cfg.RemoteScript ≠ "" then
                .readFile cfg.RemoteScript ::
                match w.readFile cfg.RemoteScript with
                | .error err => [.fatal "Unable to load remote-script" (some err)]
                | .ok script =>
                  startSession w cfg (scriptHead w envVars port listen ++ script)
              else if cfg.RemoteCommand ≠ "" then
                startSession w cfg
                  (scriptHead w envVars port listen ++ utf8 ("exec " ++ cfg.RemoteCommand))
              else
                [.fatal "Neither remote-command nor remote-script specified" none]

/-- Whether an effect reaches out to the remote host: the remote dial, the remote listen and
the opening of a session. -/
def Effect.isNetwork : Effect → Bool
  | .sshDial _ _ => true
  | .clientListen _ => true
  | .newSession => true
  | .sessionStart _ _ _ => true
  | _ => false

/-- The effects performed before the first `fatal`. -/
def beforeFatal : List Effect → List Effect
  | [] => []
  | .fatal _ _ :: _ => []
  | e :: rest => e :: beforeFatal rest

/-- What `signerFromPem` returns once the per-type parser has answered `parsed`: a parse error
is wrapped with `parseError`, a parsed key goes through `ssh.NewSignerFromKey`. -/
def signerFromParsed {Signer Key : Type} (lib : KeyLib Signer Key) (parseError : String)
    (parsed : Except GoError Key) : Except GoError Signer :=
  match parsed with
  | .error err => .error (errorsWrap err parseError)
  | .ok key =>
    match lib.newSignerFromKey key with
    | .error err => .error (errorsWrap err "Creating signer from encrypted key failed")
    | .ok signer => .ok signer

/-- The standard input of the remote shell: the buffer handed to the first `session.Start`
among the effects, if the run gets that far. -/
def sessionInput : List Effect → Option Bytes
  | [] => none
  | .sessionStart _ stdin _ :: _ => some stdin
  | _ :: rest => sessionInput rest

/-! ## `main.go`: `forward`

One call of `forward` runs three goroutines: `forward` itself and the two `copyConn` tasks it
starts. They are modelled as a transition system whose steps are the statements of `forward`
(lines 44-68) and, for each copy task, the return of `io.Copy` and the send on `wg`. The
return of `io.Copy` is enabled whenever the task is copying, since it depends on the peers. -/

/-- Program points of the goroutine running `forward`. -/
inductive ForwardPc where
  /-- Line 45 done: `remoteConn.Close` is deferred, `net.Dial` is next. -/
  | entry
  /-- Lines 48-51: the dial failed, the error is logged, the deferred call runs next. -/
  | dialFailed
  /-- Line 52 done: the dial succeeded and `localConn.Close` is deferred. -/
  | dialed
  /-- Line 62 done: `wg` is a channel of capacity 2. -/
  | chanMade
  /-- Line 64 done: `go copyConn(localConn, remoteConn, wg)`. -/
  | spawnedFirst
  /-- Line 65 done: `go copyConn(remoteConn, localConn, wg)`; blocked in `<-wg` (line 67). -/
  | waiting
  /-- Line 67 done: a value was received, the function returns. -/
  | returning
  /-- The deferred `localConn.Close()` has run. -/
  | localClosed
  /-- The deferred `remoteConn.Close()` has run: `forward` is over. -/
  | exited
  deriving DecidableEq, Repr

/-- Program points of a goroutine running the closure `copyConn` (lines 54-60). -/
inductive CopyPc where
  /-- The `go` statement has not run yet. -/
  | notStarted
  /-- Inside `io.Copy(w, r)`. -/
  | copying
  /-- `io.Copy` has returned (line 55), the send on `wg` is next. -/
  | copied
  /-- Line 59 done: the completion signal is in `wg`. -/
  | signalled
  deriving DecidableEq, Repr

/-- The two copy directions. -/
inductive Direction where
  /-- `copyConn(localConn, remoteConn, wg)`: remote to local. -/
  | toLocal
  /-- `copyConn(remoteConn, localConn, wg)`: local to remote. -/
  | toRemote
  deriving DecidableEq, Repr

/-- The state of one forwarded connection. `received` counts the completion signals `forward`
has taken out of `wg`. -/
structure ForwardState where
  pc : ForwardPc
  toLocal : CopyPc
  toRemote : CopyPc
  wg : Nat
  received : Nat
  localClosed : Bool
  remoteClosed : Bool
  deriving DecidableEq, Repr

/-- The state in which `forward` is entered. -/
def ForwardState.init : ForwardState :=
  { pc := .entry, toLocal := .notStarted, toRemote := .notStarted, wg := 0, received := 0,
    localClosed := false, remoteClosed := false }

/-- The atomic steps of the three goroutines. -/
inductive ForwardStep where
  /-- `net.Dial("tcp", cfg.LocalAddr)` returns, with or without an error. -/
  | dial (ok : Bool)
  /-- `make(chan struct{}, 2)`. -/
  | makeChan
  /-- A `go copyConn(...)` statement. -/
  | spawn (d : Direction)
  /-- The receive `<-wg` of `forward`. -/
  | receive
  /-- The deferred `localConn.Close()`. -/
  | closeLocal
  /-- The deferred `remoteConn.Close()`. -/
  | closeRemote
  /-- `io.Copy` returns in a copy task. -/
  | copyReturns (d : Direction)
  /-- The send `wg <- struct{}{}` of a copy task. -/
  | signal (d : Direction)
  deriving DecidableEq, Repr

/-- The program point of a copy task. -/
def ForwardState.task (s : ForwardState) : Direction → CopyPc
  | .toLocal => s.toLocal
  | .toRemote => s.toRemote

/-- Moves a copy task to a program point. -/
def ForwardState.setTask (s : ForwardState) (d : Direction) (p : CopyPc) : ForwardState :=
  match d with
  | .toLocal => { s with toLocal := p }
  | .toRemote => { s with toRemote := p }

/-- One step of the system: `none` when the step is not enabled in the state. -/
def forwardStep (s : ForwardState) : ForwardStep → Option ForwardState
  | .dial ok =>
    if s.pc = .entry then some { s with pc := if ok then .dialed else .dialFailed } else none
  | .makeChan =>
    if s.pc = .dialed then some { s with pc := .chanMade, wg := 0 } else none
  | .spawn .toLocal =>
    if s.pc = .chanMade then some { s with pc := .spawnedFirst, toLocal := .copying } else none
  | .spawn .toRemote =>
    if s.pc = .spawnedFirst then some { s with pc := .waiting, toRemote := .copying } else none
  | .receive =>
    if s.pc = .waiting ∧ 0 < s.wg then
      some { s with pc := .returning, wg := s.wg - 1, received := s.received + 1 }
    else none
  | .closeLocal =>
    if s.pc = .returning then some { s with pc := .localClosed, localClosed := true } else none
  | .closeRemote =>
    if s.pc = .localClosed ∨ s.pc = .dialFailed then
      some { s with pc := .exited, remoteClosed := true }
    else none
  | .copyReturns d =>
    if s.task d = .copying then some (s.setTask d .copied) else none
  | .signal d =>
    if s.task d = .copied ∧ s.wg < 2 then some { s.setTask d .signalled with wg := s.wg + 1 }
    else none

/-- Runs a sequence of steps: `none` when one of them is not enabled. -/
def forwardRun (s : ForwardState) : List ForwardStep → Option ForwardState
  | [] => some s
  | step :: rest => (forwardStep s step).bind fun s' => forwardRun s' rest

/-- The number of copy tasks that have sent their completion signal. -/
def ForwardState.signalled (s : ForwardState) : Nat :=
  (if s.toLocal = .signalled then 1 else 0) + (if s.toRemote = .signalled then 1 else 0)

/-- The invariant of the states reached after a successful dial. -/
def ForwardState.Inv (s : ForwardState) : Prop :=
  s.wg + s.received = s.signalled ∧
    match s.pc with
    | .entry => False
    | .dialFailed => False
    | .dialed => s.received = 0 ∧ s.localClosed = false ∧ s.remoteClosed = false
        ∧ s.toLocal = .notStarted ∧ s.toRemote = .notStarted
    | .chanMade => s.received = 0 ∧ s.localClosed = false ∧ s.remoteClosed = false
        ∧ s.toLocal = .notStarted ∧ s.toRemote = .notStarted
    | .spawnedFirst => s.received = 0 ∧ s.localClosed = false ∧ s.remoteClosed = false
        ∧ s.toRemote = .notStarted
    | .waiting => s.received = 0 ∧ s.localClosed = false ∧ s.remoteClosed = false
    | .returning => s.received = 1 ∧ s.localClosed = false ∧ s.remoteClosed = false
    | .localClosed => s.received = 1 ∧ s.localClosed = true ∧ s.remoteClosed = false
    | .exited => s.received = 1 ∧ s.localClosed = true ∧ s.remoteClosed = true

/-! ## A small instance of the libraries

Used to run the definitions on concrete inputs. The first byte of an input selects the block
type, the second says whether the block carries a `DEK-Info` header, the rest is the body. -/

/-- Block types by tag. -/
def toyType (tag : UInt8) : String :=
  if tag = 1 then "RSA PRIVATE KEY"
  else if tag = 2 then "EC PRIVATE KEY"
  else if tag = 3 then "DSA PRIVATE KEY"
  else if tag = 4 then "OPENSSH PRIVATE KEY"
  else "CERTIFICATE"

/-- A toy decoder: no block in an input shorter than two bytes. -/
def toyDecode : Bytes → Option PemBlock
  | tag :: enc :: body =>
    some { blockType := toyType tag,
           Headers := if enc = 1 then [("DEK-Info", "AES-128-CBC,00")] else [],
           Bytes := body }
  | _ => none

/-- A toy key parser: the key is named after the algorithm, an empty body is rejected. -/
def toyParse (algo : String) (der : Bytes) : Except GoError String :=
  if der = [] then .error (.mk "asn1: syntax error") else .ok algo

/-- The toy library: blocks with a `DEK-Info` header are encrypted and decrypt to their body
under the password `secret`. -/
def toyLib : KeyLib String String where
  pemDecode := toyDecode
  isEncryptedPEMBlock := fun b => b.Headers.any fun h => h.1 = "DEK-Info"
  decryptPEMBlock := fun b pw =>
    if pw = utf8 "secret" then .ok b.Bytes else .error (.mk "x509: decryption password incorrect")
  parsePKCS1PrivateKey := toyParse "rsa"
  parseECPrivateKey := toyParse "ecdsa"
  parseDSAPrivateKey := toyParse "dsa"
  newSignerFromKey := fun k => .ok ("signer of " ++ k)
  parsePrivateKey := fun b => if b.length < 3 then .error (.mk "ssh: no key found")
    else .ok "signer of plain key"
  isPrintTable := fun _ => true

/-- A toy `env.ListToMap`: each `KEY=value` string is split at its first `=`; an entry
without `=` makes the call panic. -/
def toyListToMap (vars : List String) : Option GoMap :=
  vars.foldl (fun acc s =>
    match acc with
    | none => none
    | some m =>
      if s.toList.contains '=' then
        some (m.insert (String.mk (s.toList.takeWhile fun c => c != '='))
          (String.mk ((s.toList.dropWhile fun c => c != '=').drop 1)))
      else none) (some ∅)

/-- The map the toy `env.ListToMap` returns for `PORT=1`, `NAME=x`, `LISTEN=evil:1`. -/
def toyVars : GoMap :=
  (((∅ : GoMap).insert "PORT" "1").insert "NAME" "x").insert "LISTEN" "evil:1"

/-- The toy world: the key file `id_rsa` holds an unencrypted key, `tunnel.sh` is a script,
every network operation succeeds and the remote listener is bound to `127.0.0.1:43211`. -/
def toyWorld : World String String where
  toKeyLib := toyLib
  readFile := fun path =>
    if path = "id_rsa" then .ok [4, 0, 7]
    else if path = "tunnel.sh" then .ok (utf8 "echo $LISTEN\n")
    else .error (.mk "open: no such file or directory")
  sshDial := fun _ _ => none
  clientListen := fun _ => .ok "127.0.0.1:43211"
  splitHostPort := fun s =>
    if s = "127.0.0.1:43211" then .ok ("127.0.0.1", "43211")
    else .error (.mk "missing port in address")
  newSession := none
  sessionStart := fun _ _ => none
  listToMap := toyListToMap
  rangeOrder := fun m => m.entries
  rangeOrder_perm := fun _ => List.Perm.refl _

/-- A configuration with a remote command, and variables that try to set `PORT` and
`LISTEN`. -/
def toyConfig : Config where
  DebugRemote := false
  IdentityFile := "id_rsa"
  IdentityFilePassword := ""
  LocalAddr := "127.0.0.1:9000"
  LogLevel := "info"
  RemoteHost := "example.com:22"
  RemoteCommand := "./serve"
  RemoteListen := "localhost:0"
  RemoteScript := ""
  RemoteUser := "me"
  Vars := ["PORT=1", "NAME=x", "LISTEN=evil:1"]
  VersionAndExit := false

/-! ## Theorems on `ssh_key.go` -/

/-- C1: when the first PEM block of the input is not encrypted, `signerFromPem` makes exactly
the calls `pem.Decode`, `x509.IsEncryptedPEMBlock` and `ssh.ParsePrivateKey` on the whole
input (no decryption, no `parsePemBlock`), returns the result of `ssh.ParsePrivateKey` with an
error wrapped as "Parsing plain private key failed", and this does not depend on the
passphrase. -/
theorem signerFromPem_plain {Signer Key : Type} (lib : KeyLib Signer Key)
    (pemBytes password password' : Bytes) (block : PemBlock)
    (hdec : lib.pemDecode pemBytes = some block)
    (hplain : lib.isEncryptedPEMBlock block = false) :
    signerFromPem lib pemBytes password =
        ([.pemDecode pemBytes, .isEncryptedPEMBlock block, .parsePrivateKey pemBytes],
          match lib.parsePrivateKey pemBytes with
          | .error err => .error (errorsWrap err "Parsing plain private key failed")
          | .ok signer => .ok signer)
      ∧ (∀ c ∈ (signerFromPem lib pemBytes password).1,
          (∀ b pw, c ≠ .decryptPEMBlock b pw) ∧ (∀ b, c ≠ .parsePemBlock b))
      ∧ signerFromPem lib pemBytes password = signerFromPem lib pemBytes password' := by
  have h : ∀ pw, signerFromPem lib pemBytes pw =
      ([.pemDecode pemBytes, .isEncryptedPEMBlock block, .parsePrivateKey pemBytes],
        match lib.parsePrivateKey pemBytes with
        | .error err => .error (errorsWrap err "Parsing plain private key failed")
        | .ok signer => .ok signer) := by
    intro pw
    simp [signerFromPem, hdec, hplain]
  refine ⟨h password, ?_, by rw [h password, h password']⟩
  intro c hc
  rw [h password] at hc
  simp at hc
  rcases hc with rfl | rfl | rfl <;> simp

/-- Witness of C1 on the toy library: an unencrypted OPENSSH block. -/
theorem signerFromPem_plain_witness :
    signerFromPem toyLib [4, 0, 7] (utf8 "a") =
        ([.pemDecode [4, 0, 7], .isEncryptedPEMBlock ⟨"OPENSSH PRIVATE KEY", [], [7]⟩,
          .parsePrivateKey [4, 0, 7]], .ok "signer of plain key")
      ∧ signerFromPem toyLib [4, 0, 7] (utf8 "a") = signerFromPem toyLib [4, 0, 7] (utf8 "b") :=
  have h := signerFromPem_plain toyLib [4, 0, 7] (utf8 "a") (utf8 "b")
    ⟨"OPENSSH PRIVATE KEY", [], [7]⟩ (by decide) (by decide)
  ⟨h.1, h.2.2⟩

/-- C2: when the first PEM block is encrypted and `x509.DecryptPEMBlock` fails with `err`,
`signerFromPem` returns no signer and the error `err` wrapped as "Decrypting PEM block
failed"; the calls made are `pem.Decode`, `x509.IsEncryptedPEMBlock` and
`x509.DecryptPEMBlock` only: no key parser and no signer constructor. -/
theorem signerFromPem_decrypt_fails {Signer Key : Type} (lib : KeyLib Signer Key)
    (pemBytes password : Bytes) (block : PemBlock) (err : GoError)
    (hdec : lib.pemDecode pemBytes = some block)
    (henc : lib.isEncryptedPEMBlock block = true)
    (hfail : lib.decryptPEMBlock block password = .error err) :
    signerFromPem lib pemBytes password =
      ([.pemDecode pemBytes, .isEncryptedPEMBlock block, .decryptPEMBlock block password],
        .error (errorsWrap err "Decrypting PEM block failed")) := by
  simp [signerFromPem, hdec, henc, hfail]

/-- Witness of C2 on the toy library: an encrypted RSA block and a wrong passphrase. -/
theorem signerFromPem_decrypt_fails_witness :
    signerFromPem toyLib [1, 1, 9] (utf8 "wrong") =
      ([.pemDecode [1, 1, 9],
        .isEncryptedPEMBlock ⟨"RSA PRIVATE KEY", [("DEK-Info", "AES-128-CBC,00")], [9]⟩,
        .decryptPEMBlock ⟨"RSA PRIVATE KEY", [("DEK-Info", "AES-128-CBC,00")], [9]⟩
          (utf8 "wrong")],
        .error (errorsWrap (.mk "x509: decryption password incorrect")
          "Decrypting PEM block failed")) :=
  signerFromPem_decrypt_fails toyLib [1, 1, 9] (utf8 "wrong")
    ⟨"RSA PRIVATE KEY", [("DEK-Info", "AES-128-CBC,00")], [9]⟩
    (.mk "x509: decryption password incorrect") (by decide) (by decide) (by decide)

/-- C3: when the first PEM block is encrypted and decrypts to `b`, `signerFromPem` calls
`parsePemBlock` on the decrypted block, which for the type "RSA PRIVATE KEY" calls
`x509.ParsePKCS1PrivateKey b`, for "EC PRIVATE KEY" `x509.ParseECPrivateKey b` and for
"DSA PRIVATE KEY" `ssh.ParseDSAPrivateKey b`; a parsed key is handed to
`ssh.NewSignerFromKey`, whose signer (or wrapped error) is returned; a parse error is returned
wrapped, with no signer and without calling the signer constructor. -/
theorem signerFromPem_dispatch {Signer Key : Type} (lib : KeyLib Signer Key)
    (pemBytes password b : Bytes) (block : PemBlock)
    (hdec : lib.pemDecode pemBytes = some block)
    (henc : lib.isEncryptedPEMBlock block = true)
    (hok : lib.decryptPEMBlock block password = .ok b) :
    (block.blockType = "RSA PRIVATE KEY" →
        (signerFromPem lib pemBytes password).2 =
            signerFromParsed lib "Parsing PKCS private key failed" (lib.parsePKCS1PrivateKey b)
          ∧ Call.parsePKCS1PrivateKey b ∈ (signerFromPem lib pemBytes password).1)
      ∧ (block.blockType = "EC PRIVATE KEY" →
        (signerFromPem lib pemBytes password).2 =
            signerFromParsed lib "Parsing EC private key failed" (lib.parseECPrivateKey b)
          ∧ Call.parseECPrivateKey b ∈ (signerFromPem lib pemBytes password).1)
      ∧ (block.blockType = "DSA PRIVATE KEY" →
        (signerFromPem lib pemBytes password).2 =
            signerFromParsed lib "Parsing DSA private key failed" (lib.parseDSAPrivateKey b)
          ∧ Call.parseDSAPrivateKey b ∈ (signerFromPem lib pemBytes password).1)
      ∧ (Call.newSignerFromKey ∈ (signerFromPem lib pemBytes password).1 ↔
          ∃ key, (parsePemBlock lib { block with Bytes := b }).2 = .ok key) := by
  refine ⟨?_, ?_, ?_, ?_⟩
  · intro ht
    cases hp : lib.parsePKCS1PrivateKey b <;>
      simp [signerFromPem, hdec, henc, hok, parsePemBlock, ht, hp, signerFromParsed]
  · intro ht
    cases hp : lib.parseECPrivateKey b <;>
      simp [signerFromPem, hdec, henc, hok, parsePemBlock, ht, hp, signerFromParsed]
  · intro ht
    cases hp : lib.parseDSAPrivateKey b <;>
      simp [signerFromPem, hdec, henc, hok, parsePemBlock, ht, hp, signerFromParsed]
  · simp only [signerFromPem, hdec, henc, hok]
    cases hp : (parsePemBlock lib { block with Bytes := b }).2 with
    | error e =>
      simp only [hp]
      simp
      intro h
      unfold parsePemBlock at h
      split_ifs at h <;> simp at h
    | ok k => simp [hp]

/-- Witness of C3 on the toy library: an encrypted EC block and the right passphrase. -/
theorem signerFromPem_dispatch_witness :
    (signerFromPem toyLib [2, 1, 9] (utf8 "secret")).2 = .ok "signer of ecdsa" :=
  ((signerFromPem_dispatch toyLib [2, 1, 9] (utf8 "secret") [9]
    ⟨"EC PRIVATE KEY", [("DEK-Info", "AES-128-CBC,00")], [9]⟩
    (by decide) (by decide) (by decide)).2.1 (by decide)).1

/-- C4, as stated, fails: the first PEM block of this input has the type "OPENSSH PRIVATE
KEY", none of the three dispatched types, and `signerFromPem` returns a signer. The block is
not encrypted, so `parsePemBlock` is never reached. -/
theorem signerFromPem_unsupported_counterexample :
    (toyLib.pemDecode [4, 0, 7]).map (fun b => b.blockType) = some "OPENSSH PRIVATE KEY"
      ∧ signerFromPem toyLib [4, 0, 7] [] =
        ([.pemDecode [4, 0, 7], .isEncryptedPEMBlock ⟨"OPENSSH PRIVATE KEY", [], [7]⟩,
          .parsePrivateKey [4, 0, 7]], .ok "signer of plain key") := by
  decide

/-- C4, amended: when the first PEM block is encrypted, decrypts successfully, and has a type
other than "RSA PRIVATE KEY", "EC PRIVATE KEY" and "DSA PRIVATE KEY", `signerFromPem`
returns no signer and the error of `parsePemBlock`, whose message is "Parsing private key
failed, unsupported key type " followed by the type string as quoted by `%q`; no key parser
is called. -/
theorem signerFromPem_unsupported {Signer Key : Type} (lib : KeyLib Signer Key)
    (pemBytes password b : Bytes) (block : PemBlock)
    (hdec : lib.pemDecode pemBytes = some block)
    (henc : lib.isEncryptedPEMBlock block = true)
    (hok : lib.decryptPEMBlock block password = .ok b)
    (hrsa : block.blockType ≠ "RSA PRIVATE KEY")
    (hec : block.blockType ≠ "EC PRIVATE KEY")
    (hdsa : block.blockType ≠ "DSA PRIVATE KEY") :
    signerFromPem lib pemBytes password =
        ([.pemDecode pemBytes, .isEncryptedPEMBlock block, .decryptPEMBlock block password,
          .parsePemBlock { block with Bytes := b }],
          .error (errorsNew ("Parsing private key failed, unsupported key type "
            ++ quote lib.isPrintTable block.blockType)))
      ∧ ∀ err, (signerFromPem lib pemBytes password).2 = .error err →
          err.Error = "Parsing private key failed, unsupported key type "
            ++ quote lib.isPrintTable block.blockType := by
  have h : signerFromPem lib pemBytes password =
      ([.pemDecode pemBytes, .isEncryptedPEMBlock block, .decryptPEMBlock block password,
        .parsePemBlock { block with Bytes := b }],
        .error (errorsNew ("Parsing private key failed, unsupported key type "
          ++ quote lib.isPrintTable block.blockType))) := by
    simp [signerFromPem, hdec, henc, hok, parsePemBlock, hrsa, hec, hdsa]
  refine ⟨h, ?_⟩
  intro err herr
  rw [h] at herr
  injection herr with herr
  rw [← herr]
  rfl

/-- Witness of the amended C4 on the toy library: an encrypted OPENSSH block. -/
theorem signerFromPem_unsupported_witness :
    (signerFromPem toyLib [4, 1, 9] (utf8 "secret")).2 =
      .error (.mk "Parsing private key failed, unsupported key type \"OPENSSH PRIVATE KEY\"") :=
  (congrArg Prod.snd (signerFromPem_unsupported toyLib [4, 1, 9] (utf8 "secret") [9]
    ⟨"OPENSSH PRIVATE KEY", [("DEK-Info", "AES-128-CBC,00")], [9]⟩
    (by decide) (by decide) (by decide) (by decide) (by decide) (by decide)).1).trans
    (by decide)

/-- C5: when `pem.Decode` finds no PEM block, `signerFromPem` returns no signer and the error
"Pem decode failed, no key found", having called nothing but `pem.Decode`. -/
theorem signerFromPem_no_block {Signer Key : Type} (lib : KeyLib Signer Key)
    (pemBytes password : Bytes) (hdec : lib.pemDecode pemBytes = none) :
    signerFromPem lib pemBytes password =
      ([.pemDecode pemBytes], .error (errorsNew "Pem decode failed, no key found")) := by
  simp [signerFromPem, hdec]

/-- Witness of C5 on the toy library: the empty input. -/
theorem signerFromPem_no_block_witness :
    signerFromPem toyLib [] (utf8 "secret") =
      ([.pemDecode []], .error (errorsNew "Pem decode failed, no key found")) :=
  signerFromPem_no_block toyLib [] (utf8 "secret") (by decide)

/-! ## Theorems on `main.go` -/

/-- C6: for every list of caller-supplied variables, `envVars` being the map
`env.ListToMap` returns for it, and every bound listener address `listen` whose port
component is `port`, the assembled environment has exactly one `PORT` and exactly one `LISTEN`
entry, `LISTEN` is `listen` and `PORT` is `port` whatever the caller supplied under these
names, every other name has the value it has in `envVars`, and the loop emits exactly one
export line per entry of the map. -/
theorem assembleEnv_port_listen {Signer Key : Type} (w : World Signer Key) (vars : List String)
    (envVars : GoMap) (listen host port : String)
    (_hvars : w.listToMap vars = some envVars)
    (_hsplit : w.splitHostPort listen = .ok (host, port)) :
    (assembleEnv envVars port listen).keys.count "PORT" = 1
      ∧ (assembleEnv envVars port listen).keys.count "LISTEN" = 1
      ∧ (assembleEnv envVars port listen).lookup "LISTEN" = some listen
      ∧ (assembleEnv envVars port listen).lookup "PORT" = some port
      ∧ (∀ k, k ≠ "PORT" → k ≠ "LISTEN" →
          (assembleEnv envVars port listen).lookup k = envVars.lookup k)
      ∧ (exportLines w (assembleEnv envVars port listen)).Perm
          ((assembleEnv envVars port listen).entries.map
            fun e => exportLine w.isPrintTable e.1 e.2)
      ∧ (exportLines w (assembleEnv envVars port listen)).length
          = (assembleEnv envVars port listen).entries.length := by
  have hne : ("PORT" : String) ≠ "LISTEN" := by decide
  refine ⟨?_, ?_, ?_, ?_, ?_, ?_, ?_⟩
  · apply List.count_eq_one_of_mem (AList.keys_nodup _)
    rw [← AList.mem_keys]
    simp [assembleEnv]
  · apply List.count_eq_one_of_mem (AList.keys_nodup _)
    rw [← AList.mem_keys]
    simp [assembleEnv]
  · simp [assembleEnv]
  · simp [assembleEnv, AList.lookup_insert_ne hne]
  · intro k hp hl
    simp [assembleEnv, AList.lookup_insert_ne hp, AList.lookup_insert_ne hl]
  · exact (w.rangeOrder_perm _).map _
  · simpa [exportLines] using (w.rangeOrder_perm (assembleEnv envVars port listen)).length_eq

/-- Witness of C6 on the toy world: the caller's `PORT=1` and `LISTEN=evil:1` are replaced,
`NAME=x` is kept. -/
theorem assembleEnv_port_listen_witness :
    toyWorld.listToMap ["PORT=1", "NAME=x", "LISTEN=evil:1"] = some toyVars
      ∧ (assembleEnv toyVars "43211" "127.0.0.1:43211").lookup "PORT" = some "43211"
      ∧ (assembleEnv toyVars "43211" "127.0.0.1:43211").lookup "LISTEN"
          = some "127.0.0.1:43211"
      ∧ (assembleEnv toyVars "43211" "127.0.0.1:43211").lookup "NAME" = some "x"
      ∧ (exportLines toyWorld (assembleEnv toyVars "43211" "127.0.0.1:43211")).length = 3 :=
  have h := assembleEnv_port_listen toyWorld ["PORT=1", "NAME=x", "LISTEN=evil:1"] toyVars
    "127.0.0.1:43211" "127.0.0.1" "43211" rfl (by decide)
  ⟨rfl, h.2.2.2.1, h.2.2.1,
    (h.2.2.2.2.1 "NAME" (by decide) (by decide)).trans (by decide),
    h.2.2.2.2.2.2.trans (by decide)⟩

/-- C7: once the key is loaded, the remote dial, the remote listen, the split of the bound
address and the session open have succeeded and `env.ListToMap` has returned the environment
set `envVars`, the input of the remote shell is the line
`set -euxo pipefail`, then the export lines and nothing else, then the payload: the bytes of
the script file when a script path is given (whatever the remote command is), and
`exec <command>` when only a command is given. -/
theorem main_script_input {Signer Key : Type} (w : World Signer Key) (cfg : Config)
    (privateKey : Signer) (listen host port : String) (envVars : GoMap)
    (hkey : loadPrivateKey w cfg = .ok privateKey)
    (hdial : w.sshDial cfg.RemoteHost { User := cfg.RemoteUser, Auth := privateKey } = none)
    (hlisten : w.clientListen cfg.RemoteListen = .ok listen)
    (hsplit : w.splitHostPort listen = .ok (host, port))
    (hsession : w.newSession = none)
    (hvars : w.listToMap cfg.Vars = some envVars) :
    (∀ script, cfg.RemoteScript ≠ "" → w.readFile cfg.RemoteScript = .ok script →
        sessionInput (main w cfg) = some (utf8 "set -euxo pipefail\n"
          ++ (exportLines w (assembleEnv envVars port listen)).flatMap utf8
          ++ script))
      ∧ (cfg.RemoteScript = "" → cfg.RemoteCommand ≠ "" →
        sessionInput (main w cfg) = some (utf8 "set -euxo pipefail\n"
          ++ (exportLines w (assembleEnv envVars port listen)).flatMap utf8
          ++ utf8 ("exec " ++ cfg.RemoteCommand))) := by
  constructor
  · intro script hs hread
    simp [main, hkey, hdial, hlisten, hsplit, hsession, hvars, hs, hread, sessionInput,
      startSession, scriptHead]
  · intro hs hc
    simp [main, hkey, hdial, hlisten, hsplit, hsession, hvars, hs, hc, sessionInput,
      startSession, scriptHead]

/-- Witness of C7 on the toy world: with only a remote command the input ends with the
`exec` line. -/
theorem main_script_input_witness :
    sessionInput (main toyWorld toyConfig) = some (utf8 "set -euxo pipefail\n"
      ++ (exportLines toyWorld (assembleEnv toyVars "43211" "127.0.0.1:43211")).flatMap utf8
      ++ utf8 ("exec " ++ "./serve")) :=
  (main_script_input toyWorld toyConfig "signer of plain key" "127.0.0.1:43211" "127.0.0.1"
    "43211" toyVars (by decide) (by decide) (by decide) (by decide) (by decide)
    rfl).2 (by decide) (by decide)

/-- C8, as stated, fails: with neither a remote command nor a remote script, the effects of
`main` on the toy world are the key file read, the remote dial, the remote listen, the start
of the accept loop and the session open, and only then the fatal error "Neither
remote-command nor remote-script specified". -/
theorem main_neither_counterexample :
    main toyWorld { toyConfig with RemoteCommand := "" } =
        [.signalNotify, .readFile "id_rsa", .sshDial "example.com:22" "me",
          .clientListen "localhost:0", .logDebug "Remote port established" "43211",
          .goAcceptLoop, .newSession,
          .fatal "Neither remote-command nor remote-script specified" none]
      ∧ (beforeFatal (main toyWorld { toyConfig with RemoteCommand := "" })).any
          Effect.isNetwork = true := by
  decide

/-- C8, amended: with neither a remote command nor a remote script, the remote shell is never
started; when the key is loaded, the remote dial, the remote listen, the split of the bound
address and the session open succeed and `env.ListToMap` returns a map for the caller's
variables, the effects of `main` are exactly the key file read, the remote dial, the remote
listen, the start of the accept loop, the session open and then the fatal error "Neither
remote-command nor remote-script specified"; and whenever that fatal error occurs, the remote
dial, the remote listen and the session open precede it. -/
theorem main_neither {Signer Key : Type} (w : World Signer Key) (cfg : Config)
    (hscript : cfg.RemoteScript = "") (hcommand : cfg.RemoteCommand = "") :
    sessionInput (main w cfg) = none
      ∧ (∀ (privateKey : Signer) (listen host port : String) (envVars : GoMap),
        loadPrivateKey w cfg = .ok privateKey →
        w.sshDial cfg.RemoteHost { User := cfg.RemoteUser, Auth := privateKey } = none →
        w.clientListen cfg.RemoteListen = .ok listen →
        w.splitHostPort listen = .ok (host, port) →
        w.newSession = none →
        w.listToMap cfg.Vars = some envVars →
        main w cfg =
          [.signalNotify, .readFile cfg.IdentityFile, .sshDial cfg.RemoteHost cfg.RemoteUser,
            .clientListen cfg.RemoteListen, .logDebug "Remote port established" port,
            .goAcceptLoop, .newSession,
            .fatal "Neither remote-command nor remote-script specified" none])
      ∧ (Effect.fatal "Neither remote-command nor remote-script specified" none ∈ main w cfg →
          Effect.sshDial cfg.RemoteHost cfg.RemoteUser ∈ beforeFatal (main w cfg)
            ∧ Effect.clientListen cfg.RemoteListen ∈ beforeFatal (main w cfg)
            ∧ Effect.newSession ∈ beforeFatal (main w cfg)) := by
  refine ⟨?_, ?_, ?_⟩
  · unfold main
    simp only [hscript, hcommand]
    repeat' split
    all_goals simp_all [sessionInput]
  · intro privateKey listen host port envVars hkey hdial hlisten hsplit hsession hvars
    simp [main, hkey, hdial, hlisten, hsplit, hsession, hvars, hscript, hcommand]
  · unfold main
    simp only [hscript, hcommand]
    repeat' split
    all_goals simp_all [beforeFatal]

/-- Witness of the amended C8 on the toy world: the variables are well formed and the run
ends in the fatal error after the session open. -/
theorem main_neither_witness :
    sessionInput (main toyWorld { toyConfig with RemoteCommand := "" }) = none
      ∧ main toyWorld { toyConfig with RemoteCommand := "" } =
        [.signalNotify, .readFile "id_rsa", .sshDial "example.com:22" "me",
          .clientListen "localhost:0", .logDebug "Remote port established" "43211",
          .goAcceptLoop, .newSession,
          .fatal "Neither remote-command nor remote-script specified" none] :=
  have h := main_neither toyWorld { toyConfig with RemoteCommand := "" } (by decide)
    (by decide)
  ⟨h.1, h.2.1 "signer of plain key" "127.0.0.1:43211" "127.0.0.1" "43211" toyVars
    (by decide) (by decide) (by decide) (by decide) (by decide) rfl⟩

/-- On the toy world, a caller's variable without `=` makes `env.ListToMap` panic after the
session open: the run ends there, whatever the payload options are. -/
theorem main_malformed_var_panics :
    main toyWorld { toyConfig with RemoteCommand := "", Vars := ["NOEQ"] } =
      [.signalNotify, .readFile "id_rsa", .sshDial "example.com:22" "me",
        .clientListen "localhost:0", .logDebug "Remote port established" "43211",
        .goAcceptLoop, .newSession, .panic, .sessionClose, .remoteListenerClose] := by
  decide

/-- Outside double quotes and backslashes, `%q` copies printable ASCII unchanged: a value made
of such characters is written between double quotes as it is. -/
theorem quote_printable (table : Char → Bool) (v : String)
    (h : ∀ c ∈ v.toList, 0x20 ≤ c.toNat ∧ c.toNat ≤ 0x7E ∧ c ≠ '"' ∧ c ≠ '\\') :
    quote table v = "\"" ++ v ++ "\"" := by
  have key : ∀ (l : List Char) (buf : String),
      (∀ c ∈ l, 0x20 ≤ c.toNat ∧ c.toNat ≤ 0x7E ∧ c ≠ '"' ∧ c ≠ '\\') →
      l.foldl (fun buf r => buf ++ appendEscapedRune table r) buf = buf ++ String.mk l := by
    intro l
    induction l with
    | nil => intro buf _; apply String.ext; simp
    | cons c l ih =>
      intro buf hl
      have hc := hl c (List.mem_cons_self _ _)
      have hle : c.toNat ≤ 0xFF := by omega
      have hstep : appendEscapedRune table c = c.toString := by
        simp [appendEscapedRune, IsPrint, hc.1, hc.2.1, hc.2.2.1, hc.2.2.2, hle]
      rw [List.foldl_cons, hstep, ih _ fun d hd => hl d (List.mem_cons_of_mem _ hd)]
      apply String.ext
      simp [Char.toString, String.singleton]
  unfold quote
  rw [key v.toList "\"" h]
  rfl

set_option maxRecDepth 100000 in
/-- C9 fails on the code: for the entry `X` with the value `$(touch /tmp/pwned)` the emitted
line is `export X="$(touch /tmp/pwned)"`: the `$(` reaches the shell unescaped inside double
quotes, where it is a command substitution. On the toy world, with the variable
`X=$(touch /tmp/pwned)` given by the caller, this line is part of the input of the remote
shell. -/
theorem exportLine_command_substitution :
    (∀ table, exportLine table "X" "$(touch /tmp/pwned)"
        = "export X=\"$(touch /tmp/pwned)\"\n")
      ∧ sessionInput (main toyWorld { toyConfig with Vars := ["X=$(touch /tmp/pwned)"] })
        = some (utf8 ("set -euxo pipefail\n"
            ++ "export LISTEN=\"127.0.0.1:43211\"\n"
            ++ "export PORT=\"43211\"\n"
            ++ "export X=\"$(touch /tmp/pwned)\"\n"
            ++ "exec ./serve")) := by
  constructor
  · intro table
    unfold exportLine
    rw [quote_printable table "$(touch /tmp/pwned)" (by decide)]
    rfl
  · decide

/-! ## Theorems on `forward` -/

/-- Every enabled step preserves the invariant. -/
theorem forwardStep_inv (s s' : ForwardState) (step : ForwardStep) (hs : s.Inv)
    (h : forwardStep s step = some s') : s'.Inv := by
  obtain ⟨pc, tl, tr, wg, rc, lc, rmc⟩ := s
  cases step with
  | dial ok =>
    cases pc <;> simp [forwardStep, ForwardState.Inv] at h hs
  | makeChan =>
    cases pc <;> simp [forwardStep, ForwardState.Inv, ForwardState.signalled] at h hs
    subst h
    obtain ⟨h1, h2, h3, h4, h5, h6⟩ := hs
    subst h5 h6
    simp [ForwardState.Inv, ForwardState.signalled, h2, h3, h4]
  | spawn d =>
    cases d <;> cases pc <;>
      simp [forwardStep, ForwardState.Inv, ForwardState.signalled] at h hs
    · subst h
      obtain ⟨h1, h2, h3, h4, h5, h6⟩ := hs
      subst h5 h6
      simp [ForwardState.Inv, ForwardState.signalled, h2, h3, h4] at h1 ⊢
      omega
    · subst h
      obtain ⟨h1, h2, h3, h4, h5⟩ := hs
      subst h5
      simp [ForwardState.Inv, ForwardState.signalled, h2, h3, h4] at h1 ⊢
      omega
  | receive =>
    cases pc <;> simp [forwardStep, ForwardState.Inv, ForwardState.signalled] at h hs
    obtain ⟨hpos, rfl⟩ := h
    obtain ⟨h1, h2, h3, h4⟩ := hs
    simp [ForwardState.Inv, ForwardState.signalled, h2, h3, h4] at h1 ⊢
    omega
  | closeLocal =>
    cases pc <;> simp [forwardStep, ForwardState.Inv, ForwardState.signalled] at h hs
    subst h
    obtain ⟨h1, h2, h3, h4⟩ := hs
    simp [ForwardState.Inv, ForwardState.signalled, h2, h3, h4] at h1 ⊢
    omega
  | closeRemote =>
    cases pc <;> simp [forwardStep, ForwardState.Inv, ForwardState.signalled] at h hs
    subst h
    obtain ⟨h1, h2, h3, h4⟩ := hs
    simp [ForwardState.Inv, ForwardState.signalled, h2, h3, h4] at h1 ⊢
    omega
  | copyReturns d =>
    cases d <;> cases tl <;> cases tr <;>
      simp [forwardStep, ForwardState.task, ForwardState.setTask] at h <;>
      subst h <;> cases pc <;>
      simp [ForwardState.Inv, ForwardState.signalled] at hs ⊢ <;>
      exact hs
  | signal d =>
    cases d <;> cases tl <;> cases tr <;>
      simp [forwardStep, ForwardState.task, ForwardState.setTask] at h <;>
      obtain ⟨hlt, rfl⟩ := h <;> cases pc <;>
      simp [ForwardState.Inv, ForwardState.signalled] at hs ⊢ <;>
      first
        | exact hs
        | (refine ⟨?_, ?_, hs.2.2.1, hs.2.2.2⟩ <;> omega)

/-- Every run from a state satisfying the invariant ends in such a state. -/
theorem forwardRun_inv (steps : List ForwardStep) (s s' : ForwardState) (hs : s.Inv)
    (h : forwardRun s steps = some s') : s'.Inv := by
  induction steps generalizing s with
  | nil =>
    simp [forwardRun] at h
    exact h ▸ hs
  | cons step rest ih =>
    simp only [forwardRun] at h
    cases hstep : forwardStep s step with
    | none => simp [hstep] at h
    | some s1 =>
      rw [hstep] at h
      exact ih s1 (forwardStep_inv s s1 step hs hstep) h

/-- C10, as stated, fails: in this execution the dial succeeds, the remote-to-local copy ends
and signals, `forward` receives that one signal and closes `localConn` and `remoteConn`; a
single completion signal has been received and the local-to-remote task is still inside
`io.Copy`. -/
theorem forward_close_counterexample :
    forwardRun ForwardState.init
        [.dial true, .makeChan, .spawn .toLocal, .spawn .toRemote, .copyReturns .toLocal,
          .signal .toLocal, .receive, .closeLocal, .closeRemote] =
      some { pc := .exited, toLocal := .signalled, toRemote := .copying, wg := 0,
             received := 1, localClosed := true, remoteClosed := true } := by
  decide

/-- C10, amended: in every execution of a forwarded connection whose local dial succeeds,
`forward` receives at most one completion signal, and neither `localConn` nor `remoteConn` is
closed by `forward` until that one signal, sent by a copy task that has finished, has been
received. -/
theorem forward_close_after_first_signal (steps : List ForwardStep) (s : ForwardState)
    (h : forwardRun ForwardState.init (.dial true :: steps) = some s) :
    s.received ≤ 1
      ∧ (s.localClosed = true ∨ s.remoteClosed = true →
          s.received = 1 ∧ (s.toLocal = .signalled ∨ s.toRemote = .signalled)) := by
  have h0 : ForwardState.Inv { ForwardState.init with pc := .dialed } := by
    simp [ForwardState.Inv, ForwardState.init, ForwardState.signalled]
  have hinv : s.Inv := forwardRun_inv steps _ s h0 (by simpa [forwardRun, forwardStep,
    ForwardState.init] using h)
  obtain ⟨pc, tl, tr, wg, rc, lc, rmc⟩ := s
  obtain ⟨hcount, hpc⟩ := hinv
  have hsig : rc = 1 → tl = .signalled ∨ tr = .signalled := by
    intro h1
    by_contra hno
    push_neg at hno
    simp [ForwardState.signalled, hno.1, hno.2] at hcount
    omega
  cases pc <;> simp [ForwardState.Inv] at hpc <;> obtain ⟨h1, h2, h3⟩ := hpc <;>
    simp_all

/-- Witness of the amended C10: the execution in which the local-to-remote copy ends first. -/
theorem forward_close_after_first_signal_witness :
    (ForwardState.mk .exited .copying .signalled 0 1 true true).received = 1
      ∧ ((ForwardState.mk .exited .copying .signalled 0 1 true true).toLocal = .signalled
        ∨ (ForwardState.mk .exited .copying .signalled 0 1 true true).toRemote = .signalled) :=
  (forward_close_after_first_signal
    [.makeChan, .spawn .toLocal, .spawn .toRemote, .copyReturns .toRemote, .signal .toRemote,
      .receive, .closeLocal, .closeRemote]
    (ForwardState.mk .exited .copying .signalled 0 1 true true) (by decide)).2
    (Or.inl rfl)

end Shareport
